import Mathlib

/-!
Verification of the obsctl concurrent traffic generator
(`scripts/generate_traffic.py` and `scripts/traffic_config.py`).

The Python source is shallowly embedded: shared mutable state (operation
registry, bucket set, counters, disk-check timestamps) becomes explicit
state passed through step functions; each block that the source executes
under a lock becomes one atomic step of a trace; fallible subprocess and
filesystem calls become explicit outcome parameters.  Machine integers in
the source are Python arbitrary-precision ints, so `Nat` models them
directly; wall-clock times and disk sizes (Python floats holding seconds
and gigabytes) are modelled as `ℚ`.
-/

namespace ObsctlTraffic

/-! ## Operation Registry (generate_traffic.py, lines 180-214)

`active_operations` is a dict from file path to operation info, mutated
under the reentrant `operations_lock`; each locked block is one step here.
The dict is modelled as an association list whose keys are unique in the
program (paths embed user id and timestamp); `register_operation` mirrors
dict assignment by replacing any entry with the same key. -/

structure OperationInfo where
  opType : String
  userId : String
  startTime : ℚ
  threadId : Nat
deriving Repr, DecidableEq

abbrev Registry := List (String × OperationInfo)

/-- `register_operation(file_path, operation_type, user_id)`: dict assignment
`active_operations[file_path] = info`. -/
def register_operation (reg : Registry) (filePath : String) (info : OperationInfo) : Registry :=
  (filePath, info) :: reg.filter (fun e => e.1 != filePath)

/-- `unregister_operation(file_path)`: `active_operations.pop(file_path, None)`. -/
def unregister_operation (reg : Registry) (filePath : String) : Registry :=
  reg.filter (fun e => e.1 != filePath)

/-- `is_file_in_use(file_path)`: `file_path in active_operations`. -/
def is_file_in_use (reg : Registry) (filePath : String) : Bool :=
  reg.any (fun e => e.1 == filePath)

/-- `get_active_operations_for_user(user_id)`. -/
def get_active_operations_for_user (reg : Registry) (userId : String) : List String :=
  (reg.filter (fun e => e.2.userId == userId)).map (fun e => e.1)

/-! ## Cleanup passes

`UserSimulator.run`'s shutdown block (lines 882-901) walks the user's temp
directory and removes exactly the files `f` with `not is_file_in_use(f)`;
`ConcurrentTrafficGenerator.run`'s final cleanup (lines 1110-1137) walks the
shared temp root, collects files with `is_file_in_use` as protected, and
removes the rest.  A directory's file listing is modelled as the list of
paths it contains; the result of a pass is the list of files remaining. -/

/-- Files remaining in the user's directory after the per-user shutdown
cleanup in `UserSimulator.run`: only files not in an active operation are
removed. -/
def user_cleanup (files : List String) (reg : Registry) : List String :=
  files.filter (fun p => is_file_in_use reg p)

/-- Files the Supervisor's final cleanup reports as protected
(`protected_files` in `ConcurrentTrafficGenerator.run`). -/
def protected_files (files : List String) (reg : Registry) : List String :=
  files.filter (fun p => is_file_in_use reg p)

/-- Files remaining under the shared temp root after the Supervisor's final
cleanup pass: every file not in an active operation is removed, the
protected ones are left in place. -/
def final_cleanup (files : List String) (reg : Registry) : List String :=
  files.filter (fun p => is_file_in_use reg p)

/-! ## Disk budget monitor (traffic_config.py, lines 15-20 and 313-330)

`shutil.disk_usage` may fail; its observable result is modelled as
`Option ℚ` — `some freeBytes` on success, `none` when the call raises.
Python's `float('inf')` result is modelled by a dedicated constructor. -/

structure DiskSpaceConfig where
  min_free_gb : ℚ
  stop_threshold_gb : ℚ
  check_interval_seconds : ℚ
  emergency_cleanup_gb : ℚ
deriving Repr

def DISK_SPACE_CONFIG : DiskSpaceConfig :=
  { min_free_gb := 10
    stop_threshold_gb := 11
    check_interval_seconds := 30
    emergency_cleanup_gb := 5 }

/-- Result of `get_disk_free_space_gb`: a finite number of gigabytes, or
`float('inf')` when `shutil.disk_usage` raised. -/
inductive FreeSpace where
  | finite (gb : ℚ)
  | infinite
deriving Repr, DecidableEq

/-- Comparison `free_gb <= threshold` as evaluated by Python: infinity is
strictly greater than every finite threshold. -/
def FreeSpace.leThreshold : FreeSpace → ℚ → Bool
  | .finite gb, t => decide (gb ≤ t)
  | .infinite, _ => false

/-- `get_disk_free_space_gb(path)`: `free_bytes / 1024**3` on success,
`float('inf')` when disk usage cannot be read. -/
def get_disk_free_space_gb (diskUsage : Option ℚ) : FreeSpace :=
  match diskUsage with
  | some freeBytes => .finite (freeBytes / 1024 ^ 3)
  | none => .infinite

/-- `should_stop_generation()`: `free_gb <= stop_threshold_gb`. -/
def should_stop_generation (diskUsage : Option ℚ) : Bool :=
  (get_disk_free_space_gb diskUsage).leThreshold DISK_SPACE_CONFIG.stop_threshold_gb

/-- `needs_emergency_cleanup()`: `free_gb <= emergency_cleanup_gb`. -/
def needs_emergency_cleanup (diskUsage : Option ℚ) : Bool :=
  (get_disk_free_space_gb diskUsage).leThreshold DISK_SPACE_CONFIG.emergency_cleanup_gb

/-! ## `UserSimulator.check_disk_space` (generate_traffic.py, lines 307-330)

Per-actor state is `self.last_disk_check` (initially 0).  The function
returns `(verdict, newLastDiskCheck, sampled)`: the verdict it returns to
the caller, the updated timestamp, and whether this call actually sampled
the disk.  The source reads the disk several times inside one sampling pass
(once for logging, once per predicate); the pass is modelled with one
observed `diskUsage` value, matching a single point-in-time reading. -/

def check_disk_space (lastDiskCheck : ℚ) (now : ℚ) (diskUsage : Option ℚ) :
    Bool × ℚ × Bool :=
  if now - lastDiskCheck < DISK_SPACE_CONFIG.check_interval_seconds then
    (true, lastDiskCheck, false)
  else
    let verdict :=
      if needs_emergency_cleanup diskUsage then false
      else if should_stop_generation diskUsage then false
      else true
    (verdict, now, true)

/-! ## Metrics Aggregator (generate_traffic.py)

`global_stats` (lines 97-106) has eight keys; each user's entry in
`user_stats` (lines 243-249) has nine keys — note the key sets differ:
`ttl_policies_applied` exists only globally, while `subfolders_used` and
`disk_space_checks` exist only per user.  Every block the source executes
under `stats_lock` becomes one `StatsEvent`; `USER_CONFIGS` has exactly ten
users, so user ids are `Fin 10`. -/

abbrev UserId := Fin 10

structure GlobalStats where
  operations : Nat
  uploads : Nat
  downloads : Nat
  errors : Nat
  files_created : Nat
  large_files_created : Nat
  ttl_policies_applied : Nat
  bytes_transferred : Nat
deriving Repr, DecidableEq

structure UserStatsRec where
  operations : Nat
  uploads : Nat
  downloads : Nat
  errors : Nat
  bytes_transferred : Nat
  files_created : Nat
  large_files : Nat
  subfolders_used : Nat
  disk_space_checks : Nat
deriving Repr, DecidableEq

def initGlobalStats : GlobalStats :=
  { operations := 0, uploads := 0, downloads := 0, errors := 0
    files_created := 0, large_files_created := 0
    ttl_policies_applied := 0, bytes_transferred := 0 }

def initUserStats : UserStatsRec :=
  { operations := 0, uploads := 0, downloads := 0, errors := 0
    bytes_transferred := 0, files_created := 0, large_files := 0
    subfolders_used := 0, disk_space_checks := 0 }

structure StatsState where
  global : GlobalStats
  perUser : UserId → UserStatsRec

def initStatsState : StatsState :=
  { global := initGlobalStats, perUser := fun _ => initUserStats }

/-- One `with stats_lock:` critical section of the source.
  * `uploadSuccess` — `upload_operation`, lines 605-611;
  * `downloadSuccess` — `download_operation`, lines 686-692;
  * `recordError` — the paired `errors` increments in `upload_operation`
    (581-583), `download_operation` (710-712) and `run_obsctl_command`
    (750-752, 759-761, 765-767);
  * `fileCreated` — `generate_file`, lines 481-489 (the large-file branch
    is folded into the same critical section, as in the source);
  * `ttlApplied` — `apply_ttl_policy`, lines 555-556 (global only);
  * `subfolderUsed` — `generate_subfolder_path`, lines 377-378 (user only);
  * `diskCheck` — `check_disk_space`, lines 318-319 (user only). -/
inductive StatsEvent where
  | uploadSuccess (u : UserId) (sizeBytes : Nat)
  | downloadSuccess (u : UserId) (fileSize : Nat)
  | recordError (u : UserId)
  | fileCreated (u : UserId) (isLarge : Bool)
  | ttlApplied (u : UserId)
  | subfolderUsed (u : UserId)
  | diskCheck (u : UserId)
deriving Repr, DecidableEq

def statsStep (s : StatsState) (e : StatsEvent) : StatsState :=
  match e with
  | .uploadSuccess u b =>
      { global := { s.global with
          uploads := s.global.uploads + 1
          operations := s.global.operations + 1
          bytes_transferred := s.global.bytes_transferred + b }
        perUser := Function.update s.perUser u
          { s.perUser u with
              uploads := (s.perUser u).uploads + 1
              operations := (s.perUser u).operations + 1
              bytes_transferred := (s.perUser u).bytes_transferred + b } }
  | .downloadSuccess u b =>
      { global := { s.global with
          downloads := s.global.downloads + 1
          operations := s.global.operations + 1
          bytes_transferred := s.global.bytes_transferred + b }
        perUser := Function.update s.perUser u
          { s.perUser u with
              downloads := (s.perUser u).downloads + 1
              operations := (s.perUser u).operations + 1
              bytes_transferred := (s.perUser u).bytes_transferred + b } }
  | .recordError u =>
      { global := { s.global with errors := s.global.errors + 1 }
        perUser := Function.update s.perUser u
          { s.perUser u with errors := (s.perUser u).errors + 1 } }
  | .fileCreated u isLarge =>
      { global := { s.global with
          files_created := s.global.files_created + 1
          large_files_created :=
            s.global.large_files_created + (if isLarge then 1 else 0) }
        perUser := Function.update s.perUser u
          { s.perUser u with
              files_created := (s.perUser u).files_created + 1
              large_files :=
                (s.perUser u).large_files + (if isLarge then 1 else 0) } }
  | .ttlApplied _ =>
      { global := { s.global with
          ttl_policies_applied := s.global.ttl_policies_applied + 1 }
        perUser := s.perUser }
  | .subfolderUsed u =>
      { global := s.global
        perUser := Function.update s.perUser u
          { s.perUser u with
              subfolders_used := (s.perUser u).subfolders_used + 1 } }
  | .diskCheck u =>
      { global := s.global
        perUser := Function.update s.perUser u
          { s.perUser u with
              disk_space_checks := (s.perUser u).disk_space_checks + 1 } }

/-- The metrics state after a trace of critical sections, starting from the
all-zero counters. -/
def runStats (es : List StatsEvent) : StatsState :=
  es.foldl statsStep initStatsState

/-- The aggregation invariant for the seven counters that exist both in
`global_stats` and in every per-user entry of `user_stats`. -/
def StatsInv (s : StatsState) : Prop :=
  s.global.operations = ∑ u, (s.perUser u).operations
  ∧ s.global.uploads = ∑ u, (s.perUser u).uploads
  ∧ s.global.downloads = ∑ u, (s.perUser u).downloads
  ∧ s.global.errors = ∑ u, (s.perUser u).errors
  ∧ s.global.bytes_transferred = ∑ u, (s.perUser u).bytes_transferred
  ∧ s.global.files_created = ∑ u, (s.perUser u).files_created
  ∧ s.global.large_files_created = ∑ u, (s.perUser u).large_files

/-! ## Artifact Synthesizer (generate_traffic.py, lines 454-542)

`generate_file` writes binary types (`images`, `archives`, `media`) in a
chunked loop of `os.urandom` bytes, and text types (`code`, `documents`)
by building a string until its encoded length reaches `size_bytes`, then
slicing `content[:size_bytes]`.  All text the generators emit (digits,
fixed ASCII word lists, user ids and descriptions from `traffic_config`)
is ASCII, so one character is one byte and content is modelled as a byte
list (`List Nat`). -/

/-- The chunked `while remaining > 0` loop of the binary branch of
`generate_file`: returns the total number of bytes written.  The
`chunkSize = 0` exit encodes the loop's reachable states — in the source
`chunk_size = min(8192, size_bytes)` is zero only when `remaining` starts
at zero, so the extra guard is never taken with a positive remainder. -/
def binary_write_loop (chunkSize : Nat) (remaining : Nat) : Nat :=
  if chunkSize = 0 ∨ remaining = 0 then 0
  else
    min chunkSize remaining + binary_write_loop chunkSize (remaining - min chunkSize remaining)
termination_by remaining
decreasing_by
  rename_i h
  have h1 : 0 < min chunkSize remaining := by
    rcases Nat.eq_zero_or_pos chunkSize with hc | hc
    · exact absurd (Or.inl hc) h
    · rcases Nat.eq_zero_or_pos remaining with hr | hr
      · exact absurd (Or.inr hr) h
      · exact lt_min hc hr
  omega

/-- Total bytes written by the binary branch of `generate_file` for a
request of `sizeBytes` bytes: `chunk_size = min(8192, size_bytes)`. -/
def generate_file_binary_bytes (sizeBytes : Nat) : Nat :=
  binary_write_loop (min 8192 sizeBytes) sizeBytes

/-- The `while len(content.encode()) < size_bytes` accumulation loop shared
by `generate_code_content` and `generate_document_content`: `pieces i` is
the byte string the i-th iteration appends (a filled-in code template, or
a generated sentence).  The empty-piece exit encodes reachability — every
template and sentence the source can produce is non-empty. -/
def text_content_loop (pieces : Nat → List Nat) (sizeBytes : Nat) (i : Nat)
    (acc : List Nat) : List Nat :=
  if sizeBytes ≤ acc.length then acc
  else if (pieces i).length = 0 then acc
  else text_content_loop pieces sizeBytes (i + 1) (acc ++ pieces i)
termination_by sizeBytes - acc.length
decreasing_by
  simp only [List.length_append]
  omega

/-- `generate_code_content` / `generate_document_content`: start from the
header lines, accumulate pieces until the byte length reaches `sizeBytes`,
then hard-truncate with `content[:size_bytes]`. -/
def generate_text_content (header : List Nat) (pieces : Nat → List Nat)
    (sizeBytes : Nat) : List Nat :=
  (text_content_loop pieces sizeBytes 0 header).take sizeBytes

/-! ## Peak-hour classification (generate_traffic.py, lines 390-404)

`get_current_activity_level` computes
`user_hour = (current_hour + timezone_offset) % 24` and then tests the
peak window.  Timezone offsets may be fractional (`jack-mobile` has 5.5),
and Python's `%` on floats returns `x - y*floor(x/y)`, so hours are
modelled as `ℚ` with the same floor-based modulus. -/

/-- Python's `x % y` for `y > 0`: `x - y * floor(x / y)`. -/
def pythonMod (x y : ℚ) : ℚ := x - y * ⌊x / y⌋

/-- `user_hour = (current_hour + self.user_config['timezone_offset']) % 24`. -/
def user_hour (currentHour timezoneOffset : ℚ) : ℚ :=
  pythonMod (currentHour + timezoneOffset) 24

/-- The `is_peak` test of `get_current_activity_level`:
wraparound branch when `peak_start > peak_end`, otherwise
`peak_start <= user_hour <= peak_end` — both comparisons inclusive. -/
def is_peak_hour (peakStart peakEnd uh : ℚ) : Bool :=
  if peakStart > peakEnd then decide (uh ≥ peakStart) || decide (uh ≤ peakEnd)
  else decide (peakStart ≤ uh) && decide (uh ≤ peakEnd)

/-- The classification claimed by the spec, for comparison: membership in
the half-open window `[start, end)`, with wraparound past midnight. -/
def is_peak_hour_half_open_spec (peakStart peakEnd uh : ℚ) : Bool :=
  if peakStart > peakEnd then decide (uh ≥ peakStart) || decide (uh < peakEnd)
  else decide (peakStart ≤ uh) && decide (uh < peakEnd)

/-! ## Bucket Registry (generate_traffic.py, lines 770-820)

`ensure_bucket_exists` runs entirely under `bucket_creation_lock`, so each
call is one atomic step on the shared `created_buckets` set (modelled as a
list).  External observations are parameters: `probeOk` is whether the
`obsctl ls` probe returned exit code 0 (a raised exception falls through
to creation exactly like a non-zero exit), `createOk` whether the
`obsctl mb` command succeeded. -/

structure BucketCall where
  bucket : String
  probeOk : Bool
  createOk : Bool
deriving Repr, DecidableEq

/-- One call to `ensure_bucket_exists`: returns
`(result, new created_buckets, whether an mb command was issued)`.
On the creation path the bucket is added to `created_buckets` whether
`createOk` holds or not (the source adds it in both branches). -/
def ensure_bucket_exists (created : List String) (c : BucketCall) :
    Bool × List String × Bool :=
  if c.bucket ∈ created then (true, created, false)
  else if c.probeOk then (true, c.bucket :: created, false)
  else (true, c.bucket :: created, true)

/-- A sequence of `ensure_bucket_exists` calls from one process (the lock
serializes them): returns the final `created_buckets` set and the list of
buckets for which a creation command was issued, in order. -/
def bucket_call_trace (created : List String) :
    List BucketCall → List String × List String
  | [] => (created, [])
  | c :: rest =>
      let r := ensure_bucket_exists created c
      let t := bucket_call_trace r.2.1 rest
      (t.1, (if r.2.2 then [c.bucket] else []) ++ t.2)

/-! ## Process-exclusivity lock (generate_traffic.py, lines 126-178 and 1161-1177)

The lock file at `LOCK_FILE` and the advisory flock on it are modelled as
one state; `alive p` is whether a process with pid `p` exists (the
`os.kill(pid, 0)` probe). -/

structure LockState where
  /-- Contents of the lock file: `some pid` when it holds a parseable pid,
  `none` when the file is absent, empty or unparsable (`check_if_running`
  treats all three alike). -/
  content : Option Nat
  /-- Which process currently holds the advisory flock. -/
  heldBy : Option Nat
deriving Repr, DecidableEq

/-- `check_if_running()`: returns `(isRunning, pid)` and the lock file
contents afterwards — a stale lock file (dead pid) is unlinked. -/
def check_if_running (fileContent : Option Nat) (alive : Nat → Bool) :
    (Bool × Option Nat) × Option Nat :=
  match fileContent with
  | none => ((false, none), none)
  | some pid =>
      if alive pid then ((true, some pid), some pid)
      else ((false, none), none)

/-- Result of `acquire_lock()`: the lock acquired, or `sys.exit(1)` with
the pid the error path could report from the lock file. -/
inductive AcquireResult where
  | ok (st : LockState)
  | exit1 (reportedPid : Option Nat) (st : LockState)
deriving Repr, DecidableEq

/-- `acquire_lock()`: `os.open` with `O_CREAT|O_WRONLY|O_TRUNC` first
truncates the file, then `flock(LOCK_EX|LOCK_NB)` fails iff another
process holds the lock; on success the caller's pid is written to the
file. -/
def acquire_lock (myPid : Nat) (st : LockState) : AcquireResult :=
  let truncated : LockState := { st with content := none }
  match truncated.heldBy with
  | some _ => .exit1 truncated.content truncated
  | none => .ok { content := some myPid, heldBy := some myPid }

/-- Outcome of the `__main__` startup sequence (lines 1161-1177): either an
immediate exit (before any actor state or temp directory exists), or the
generator was constructed and started. -/
inductive MainOutcome where
  | exitAlreadyRunning (reportedPid : Option Nat)
  | exitLockFailed (reportedPid : Option Nat)
  | started (lock : LockState)
deriving Repr, DecidableEq

/-- The `__main__` startup: `check_if_running` first (exit reporting the
holder's pid if it says running), then `acquire_lock` (exit on failure),
then construct `ConcurrentTrafficGenerator`, whose `setup_environment`
creates `TEMP_DIR`.  The returned flag records whether that setup step —
the first creation of any actor state or temp directory — was reached. -/
def main_startup (myPid : Nat) (st : LockState) (alive : Nat → Bool) :
    MainOutcome × Bool :=
  let chk := check_if_running st.content alive
  if chk.1.1 then (.exitAlreadyRunning chk.1.2, false)
  else
    match acquire_lock myPid { st with content := chk.2 } with
    | .exit1 rep _ => (.exitLockFailed rep, false)
    | .ok st2 => (.started st2, true)

/-! ## Command execution and the actor loop (generate_traffic.py, lines 634-768 and 832-871)

The external `obsctl` invocation in `run_obsctl_command` has four
observable outcomes; the listing step of `download_operation` calls
`subprocess.run` directly and can also raise.  Stats are threaded
explicitly: each function returns `(success, global_stats, user_stats)`
for its own actor. -/

inductive CmdOutcome where
  | success
  | nonzeroExit
  | timeoutExpired
  | raised
deriving Repr, DecidableEq

/-- `run_obsctl_command(args)`: non-zero exit, `TimeoutExpired` and any
other exception are each caught, increment both error counters, and return
`False`; exit code 0 returns `True`. -/
def run_obsctl_command (o : CmdOutcome) (g : GlobalStats) (us : UserStatsRec) :
    Bool × GlobalStats × UserStatsRec :=
  match o with
  | .success => (true, g, us)
  | _ =>
      (false,
       { g with errors := g.errors + 1 },
       { us with errors := us.errors + 1 })

/-- Observable outcome of the raw `subprocess.run([OBSCTL_BINARY, 'ls', ...])`
listing step inside `download_operation`. -/
inductive ListOutcome where
  | raised
  | exited (returncode : Nat) (stdoutLines : List String)
deriving Repr, DecidableEq

/-- `download_operation()`.  `pickedParts` is the token list of the randomly
chosen listing line (a blank line yields an empty token list, taking the
same `len(parts) < 4` early return as in the source); `cp` is the outcome
of the `obsctl cp` fetch and `fetchedSize` the downloaded file's size.
An exception around the whole body is caught and counted; a non-zero exit
of the listing, a short listing, or a malformed line return `False`
without touching any counter. -/
def download_operation (lst : ListOutcome) (pickedParts : List String)
    (cp : CmdOutcome) (fetchedSize : Nat)
    (g : GlobalStats) (us : UserStatsRec) : Bool × GlobalStats × UserStatsRec :=
  match lst with
  | .raised =>
      (false,
       { g with errors := g.errors + 1 },
       { us with errors := us.errors + 1 })
  | .exited returncode lines =>
      if returncode ≠ 0 then (false, g, us)
      else if lines.length < 2 then (false, g, us)
      else if pickedParts.length < 4 then (false, g, us)
      else
        let r := run_obsctl_command cp g us
        if r.1 then
          (true,
           { r.2.1 with
               downloads := r.2.1.downloads + 1
               operations := r.2.1.operations + 1
               bytes_transferred := r.2.1.bytes_transferred + fetchedSize },
           { r.2.2 with
               downloads := r.2.2.downloads + 1
               operations := r.2.2.operations + 1
               bytes_transferred := r.2.2.bytes_transferred + fetchedSize })
        else (false, r.2.1, r.2.2)

/-- What one iteration of the `while` loop in `UserSimulator.run` observes:
which action ran and whether it succeeded.  The loop body catches every
exception (`except Exception` at line 865), so no action outcome can
escape the loop. -/
structure LoopIteration where
  actionWasUpload : Bool
  actionSucceeded : Bool
deriving Repr, DecidableEq

/-- State the loop driver carries: how many iterations have run.  The loop
exits only via `running and not shutdown_event.is_set()`, never because an
action failed. -/
def user_loop_iterations (iters : List LoopIteration) : Nat :=
  iters.foldl (fun n _ => n + 1) 0

/-! ## Theorems -/

/-- C10: the free-space sampler never raises — when disk usage cannot be
read it returns positive infinity, so `should_stop_generation` and
`needs_emergency_cleanup` both return false, and a failed disk sample can
never throttle or halt an actor. -/
theorem disk_sampler_infinite_on_failure :
    get_disk_free_space_gb none = FreeSpace.infinite
    ∧ should_stop_generation none = false
    ∧ needs_emergency_cleanup none = false :=
  ⟨rfl, rfl, rfl⟩

/-- C1: a path with a live entry in the Operation Registry is kept by both
the per-user shutdown cleanup and the Supervisor's final cleanup walk; a
path without an entry is removed by both; after unregistering a path, a
subsequent cleanup pass deletes it; and running either cleanup pass twice
produces the same filesystem state as running it once. -/
theorem cleanup_respects_operation_registry
    (files : List String) (reg : Registry) (p q : String)
    (hp : is_file_in_use reg p = true) (hpf : p ∈ files)
    (hq : is_file_in_use reg q = false) :
    (p ∈ user_cleanup files reg ∧ p ∈ final_cleanup files reg)
    ∧ (q ∉ user_cleanup files reg ∧ q ∉ final_cleanup files reg)
    ∧ is_file_in_use (unregister_operation reg p) p = false
    ∧ p ∉ user_cleanup files (unregister_operation reg p)
    ∧ p ∉ final_cleanup files (unregister_operation reg p)
    ∧ user_cleanup (user_cleanup files reg) reg = user_cleanup files reg
    ∧ final_cleanup (final_cleanup files reg) reg = final_cleanup files reg := by
  have hunreg : is_file_in_use (unregister_operation reg p) p = false := by
    simp [is_file_in_use, unregister_operation, List.any_eq_true, List.mem_filter]
  have hmem : ∀ r : Registry, ∀ x : String, is_file_in_use r x = false →
      x ∉ files.filter (fun y => is_file_in_use r y) := by
    intro r x hx hmem
    rw [List.mem_filter] at hmem
    rw [hx] at hmem
    exact Bool.false_ne_true hmem.2
  have hidem : (files.filter (fun y => is_file_in_use reg y)).filter
      (fun y => is_file_in_use reg y) = files.filter (fun y => is_file_in_use reg y) := by
    rw [List.filter_filter]
    simp
  refine ⟨⟨?_, ?_⟩, ⟨hmem reg q hq, hmem reg q hq⟩, hunreg,
    hmem _ p hunreg, hmem _ p hunreg, hidem, hidem⟩
  · exact List.mem_filter.mpr ⟨hpf, hp⟩
  · exact List.mem_filter.mpr ⟨hpf, hp⟩

/-- Witness for C1 at a concrete registry holding `f1.py` and a directory
listing `[f1.py, f2.py]`. -/
theorem cleanup_respects_operation_registry_witness :
    ("f1.py" ∈ user_cleanup ["f1.py", "f2.py"]
        [("f1.py", { opType := "upload", userId := "alice-dev", startTime := 0, threadId := 1 })]
      ∧ "f1.py" ∈ final_cleanup ["f1.py", "f2.py"]
        [("f1.py", { opType := "upload", userId := "alice-dev", startTime := 0, threadId := 1 })])
    ∧ ("f2.py" ∉ user_cleanup ["f1.py", "f2.py"]
        [("f1.py", { opType := "upload", userId := "alice-dev", startTime := 0, threadId := 1 })]
      ∧ "f2.py" ∉ final_cleanup ["f1.py", "f2.py"]
        [("f1.py", { opType := "upload", userId := "alice-dev", startTime := 0, threadId := 1 })])
    ∧ is_file_in_use (unregister_operation
        [("f1.py", { opType := "upload", userId := "alice-dev", startTime := 0, threadId := 1 })]
        "f1.py") "f1.py" = false
    ∧ "f1.py" ∉ user_cleanup ["f1.py", "f2.py"] (unregister_operation
        [("f1.py", { opType := "upload", userId := "alice-dev", startTime := 0, threadId := 1 })]
        "f1.py")
    ∧ "f1.py" ∉ final_cleanup ["f1.py", "f2.py"] (unregister_operation
        [("f1.py", { opType := "upload", userId := "alice-dev", startTime := 0, threadId := 1 })]
        "f1.py")
    ∧ user_cleanup (user_cleanup ["f1.py", "f2.py"]
        [("f1.py", { opType := "upload", userId := "alice-dev", startTime := 0, threadId := 1 })])
        [("f1.py", { opType := "upload", userId := "alice-dev", startTime := 0, threadId := 1 })]
      = user_cleanup ["f1.py", "f2.py"]
        [("f1.py", { opType := "upload", userId := "alice-dev", startTime := 0, threadId := 1 })]
    ∧ final_cleanup (final_cleanup ["f1.py", "f2.py"]
        [("f1.py", { opType := "upload", userId := "alice-dev", startTime := 0, threadId := 1 })])
        [("f1.py", { opType := "upload", userId := "alice-dev", startTime := 0, threadId := 1 })]
      = final_cleanup ["f1.py", "f2.py"]
        [("f1.py", { opType := "upload", userId := "alice-dev", startTime := 0, threadId := 1 })] :=
  cleanup_respects_operation_registry ["f1.py", "f2.py"]
    [("f1.py", { opType := "upload", userId := "alice-dev", startTime := 0, threadId := 1 })]
    "f1.py" "f2.py" (by decide) (by decide) (by decide)

/-- C4 counterexample: the code classifies the window end inclusively.
With window `(9,17)` the hour 17 is classified peak by
`get_current_activity_level`, but the half-open window `[9,17)` claimed by
the spec excludes it. -/
theorem peak_window_end_inclusive_counterexample :
    is_peak_hour 9 17 17 = true
    ∧ is_peak_hour_half_open_spec 9 17 17 = false :=
  ⟨by decide, by decide⟩

/-- C4 (amended): the local hour is the wall-clock hour plus the actor's
timezone offset modulo 24 (always in `[0,24)`), and an hour is classified
peak exactly when it lies in the closed window `[start,end]`, with
wraparound past midnight when `start > end`; with window `(9,17)` and
offset 0 a wall-clock hour of 12 is peak (and so is the boundary hour 17),
and with wrapping window `(22,6)` hour 2 is peak while hour 10 is not. -/
theorem peak_classification_closed_window :
    (∀ currentHour timezoneOffset : ℚ,
        0 ≤ user_hour currentHour timezoneOffset
        ∧ user_hour currentHour timezoneOffset < 24)
    ∧ (∀ s e h : ℚ, is_peak_hour s e h = true ↔
        (if s > e then s ≤ h ∨ h ≤ e else s ≤ h ∧ h ≤ e))
    ∧ (user_hour 12 0 = 12 ∧ is_peak_hour 9 17 12 = true)
    ∧ (user_hour 2 0 = 2 ∧ is_peak_hour 22 6 2 = true)
    ∧ (user_hour 10 0 = 10 ∧ is_peak_hour 22 6 10 = false)
    ∧ is_peak_hour 9 17 17 = true := by
  have hmod : ∀ x : ℚ, 0 ≤ pythonMod x 24 ∧ pythonMod x 24 < 24 := by
    intro x
    have h : pythonMod x 24 = 24 * Int.fract (x / 24) := by
      unfold pythonMod Int.fract
      ring
    constructor
    · rw [h]
      exact mul_nonneg (by norm_num) (Int.fract_nonneg _)
    · rw [h]
      have := Int.fract_lt_one (x / 24)
      nlinarith
  refine ⟨fun ch tz => hmod (ch + tz), ?_, ⟨?_, by decide⟩, ⟨?_, by decide⟩,
    ⟨?_, by decide⟩, by decide⟩
  · intro s e h
    by_cases hse : s > e <;> simp [is_peak_hour, hse, ge_iff_le]
  · unfold user_hour pythonMod
    norm_num
  · unfold user_hour pythonMod
    norm_num
  · unfold user_hour pythonMod
    norm_num

/-- C6 counterexample: a throttle verdict does not persist between
samples.  With free space at 1 byte a sampling call at t=100 returns the
stop verdict `False`, but a call 10 seconds later (inside the 30-second
interval) returns `True` — not the previous sample's verdict. -/
theorem disk_verdict_not_reused_counterexample :
    (check_disk_space 0 100 (some 1)).1 = false
    ∧ (check_disk_space 0 100 (some 1)).2.1 = 100
    ∧ (check_disk_space (check_disk_space 0 100 (some 1)).2.1 110 (some 1)).1 = true := by
  norm_num [check_disk_space, needs_emergency_cleanup, should_stop_generation,
    get_disk_free_space_gb, FreeSpace.leThreshold, DISK_SPACE_CONFIG]

/-- C6 (amended): each actor samples disk space at most once per configured
interval (default 30 seconds) — a sampling call records its time, and any
call within the interval of the last sample does not sample again; such a
call returns `True` (permission to continue) unconditionally rather than
the previous sample's verdict, so a throttle or emergency verdict does not
persist between samples. -/
theorem disk_check_interval_gating :
    (∀ lastCheck now usage,
        now - lastCheck < DISK_SPACE_CONFIG.check_interval_seconds →
        check_disk_space lastCheck now usage = (true, lastCheck, false))
    ∧ (∀ lastCheck now usage,
        ¬ now - lastCheck < DISK_SPACE_CONFIG.check_interval_seconds →
        (check_disk_space lastCheck now usage).2.1 = now
        ∧ (check_disk_space lastCheck now usage).2.2 = true)
    ∧ (∀ lastCheck now1 usage1 now2 usage2,
        ¬ now1 - lastCheck < DISK_SPACE_CONFIG.check_interval_seconds →
        now2 - now1 < DISK_SPACE_CONFIG.check_interval_seconds →
        check_disk_space (check_disk_space lastCheck now1 usage1).2.1 now2 usage2
          = (true, now1, false)) := by
  refine ⟨?_, ?_, ?_⟩
  · intro lastCheck now usage h
    simp [check_disk_space, h]
  · intro lastCheck now usage h
    simp [check_disk_space, h]
  · intro lastCheck now1 usage1 now2 usage2 h1 h2
    simp only [check_disk_space, if_neg h1]
    simp [h2]

/-- Witness for C6 (amended): a sample at t=50 with 1 byte free, followed
by a call at t=60, which does not sample and returns `True`. -/
theorem disk_check_interval_gating_witness :
    check_disk_space 0 10 none = (true, 0, false)
    ∧ ((check_disk_space 0 50 (some 1)).2.1 = 50
        ∧ (check_disk_space 0 50 (some 1)).2.2 = true)
    ∧ check_disk_space (check_disk_space 0 50 (some 1)).2.1 60 (some 1)
        = (true, 50, false) :=
  ⟨disk_check_interval_gating.1 0 10 none (by norm_num [DISK_SPACE_CONFIG]),
   disk_check_interval_gating.2.1 0 50 (some 1) (by norm_num [DISK_SPACE_CONFIG]),
   disk_check_interval_gating.2.2 0 50 (some 1) 60 (some 1)
     (by norm_num [DISK_SPACE_CONFIG]) (by norm_num [DISK_SPACE_CONFIG])⟩

/-- Summing a projection of a pointwise-updated user-stats table:
helper for the aggregation invariants. -/
lemma sum_proj_update (f : UserId → UserStatsRec) (i : UserId) (v : UserStatsRec) :
    ∀ g : UserStatsRec → Nat,
      (∑ u, g (Function.update f i v u)) + g (f i) = (∑ u, g (f u)) + g v := by
  intro g
  have h1 : ∀ u, g (Function.update f i v u) = Function.update (fun w => g (f w)) i (g v) u := by
    intro u
    by_cases hu : u = i
    · subst hu; simp
    · simp [Function.update_apply, hu]
  rw [Finset.sum_congr rfl (fun u _ => h1 u),
      Finset.sum_update_of_mem (Finset.mem_univ i),
      Finset.sum_eq_sum_diff_singleton_add (Finset.mem_univ i) (fun w => g (f w))]
  ring

lemma statsInv_init : StatsInv initStatsState := by
  refine ⟨?_, ?_, ?_, ?_, ?_, ?_, ?_⟩ <;>
    simp [initStatsState, initGlobalStats, initUserStats]

lemma statsInv_step (s : StatsState) (e : StatsEvent) (h : StatsInv s) :
    StatsInv (statsStep s e) := by
  obtain ⟨h1, h2, h3, h4, h5, h6, h7⟩ := h
  cases e with
  | uploadSuccess u b =>
      have hs := sum_proj_update s.perUser u
        { s.perUser u with
            uploads := (s.perUser u).uploads + 1
            operations := (s.perUser u).operations + 1
            bytes_transferred := (s.perUser u).bytes_transferred + b }
      refine ⟨?_, ?_, ?_, ?_, ?_, ?_, ?_⟩ <;> simp only [statsStep]
      · have h := hs (fun r => r.operations); dsimp only at h; omega
      · have h := hs (fun r => r.uploads); dsimp only at h; omega
      · have h := hs (fun r => r.downloads); dsimp only at h; omega
      · have h := hs (fun r => r.errors); dsimp only at h; omega
      · have h := hs (fun r => r.bytes_transferred); dsimp only at h; omega
      · have h := hs (fun r => r.files_created); dsimp only at h; omega
      · have h := hs (fun r => r.large_files); dsimp only at h; omega
  | downloadSuccess u b =>
      have hs := sum_proj_update s.perUser u
        { s.perUser u with
            downloads := (s.perUser u).downloads + 1
            operations := (s.perUser u).operations + 1
            bytes_transferred := (s.perUser u).bytes_transferred + b }
      refine ⟨?_, ?_, ?_, ?_, ?_, ?_, ?_⟩ <;> simp only [statsStep]
      · have h := hs (fun r => r.operations); dsimp only at h; omega
      · have h := hs (fun r => r.uploads); dsimp only at h; omega
      · have h := hs (fun r => r.downloads); dsimp only at h; omega
      · have h := hs (fun r => r.errors); dsimp only at h; omega
      · have h := hs (fun r => r.bytes_transferred); dsimp only at h; omega
      · have h := hs (fun r => r.files_created); dsimp only at h; omega
      · have h := hs (fun r => r.large_files); dsimp only at h; omega
  | recordError u =>
      have hs := sum_proj_update s.perUser u
        { s.perUser u with errors := (s.perUser u).errors + 1 }
      refine ⟨?_, ?_, ?_, ?_, ?_, ?_, ?_⟩ <;> simp only [statsStep]
      · have h := hs (fun r => r.operations); dsimp only at h; omega
      · have h := hs (fun r => r.uploads); dsimp only at h; omega
      · have h := hs (fun r => r.downloads); dsimp only at h; omega
      · have h := hs (fun r => r.errors); dsimp only at h; omega
      · have h := hs (fun r => r.bytes_transferred); dsimp only at h; omega
      · have h := hs (fun r => r.files_created); dsimp only at h; omega
      · have h := hs (fun r => r.large_files); dsimp only at h; omega
  | fileCreated u isLarge =>
      have hs := sum_proj_update s.perUser u
        { s.perUser u with
            files_created := (s.perUser u).files_created + 1
            large_files := (s.perUser u).large_files + (if isLarge then 1 else 0) }
      refine ⟨?_, ?_, ?_, ?_, ?_, ?_, ?_⟩ <;> simp only [statsStep]
      · have h := hs (fun r => r.operations); dsimp only at h; omega
      · have h := hs (fun r => r.uploads); dsimp only at h; omega
      · have h := hs (fun r => r.downloads); dsimp only at h; omega
      · have h := hs (fun r => r.errors); dsimp only at h; omega
      · have h := hs (fun r => r.bytes_transferred); dsimp only at h; omega
      · have h := hs (fun r => r.files_created); dsimp only at h; omega
      · have h := hs (fun r => r.large_files); dsimp only at h; omega
  | ttlApplied u =>
      exact ⟨h1, h2, h3, h4, h5, h6, h7⟩
  | subfolderUsed u =>
      have hs := sum_proj_update s.perUser u
        { s.perUser u with subfolders_used := (s.perUser u).subfolders_used + 1 }
      refine ⟨?_, ?_, ?_, ?_, ?_, ?_, ?_⟩ <;> simp only [statsStep]
      · have h := hs (fun r => r.operations); dsimp only at h; omega
      · have h := hs (fun r => r.uploads); dsimp only at h; omega
      · have h := hs (fun r => r.downloads); dsimp only at h; omega
      · have h := hs (fun r => r.errors); dsimp only at h; omega
      · have h := hs (fun r => r.bytes_transferred); dsimp only at h; omega
      · have h := hs (fun r => r.files_created); dsimp only at h; omega
      · have h := hs (fun r => r.large_files); dsimp only at h; omega
  | diskCheck u =>
      have hs := sum_proj_update s.perUser u
        { s.perUser u with disk_space_checks := (s.perUser u).disk_space_checks + 1 }
      refine ⟨?_, ?_, ?_, ?_, ?_, ?_, ?_⟩ <;> simp only [statsStep]
      · have h := hs (fun r => r.operations); dsimp only at h; omega
      · have h := hs (fun r => r.uploads); dsimp only at h; omega
      · have h := hs (fun r => r.downloads); dsimp only at h; omega
      · have h := hs (fun r => r.errors); dsimp only at h; omega
      · have h := hs (fun r => r.bytes_transferred); dsimp only at h; omega
      · have h := hs (fun r => r.files_created); dsimp only at h; omega
      · have h := hs (fun r => r.large_files); dsimp only at h; omega

lemma statsInv_run (es : List StatsEvent) : StatsInv (runStats es) := by
  have h : ∀ s, StatsInv s → StatsInv (es.foldl statsStep s) := by
    induction es with
    | nil => exact fun s hs => hs
    | cons e rest ih => exact fun s hs => ih _ (statsInv_step s e hs)
  exact h initStatsState statsInv_init

/-- C2 counterexample: `apply_ttl_policy` increments only the global
`ttl_policies_applied` counter — the per-user stats dictionaries carry no
TTL counter at all, so after one TTL application the global counter is 1
while every per-user record is bitwise unchanged (equal to the per-user
state of the empty trace); no sum of per-actor counters can equal it. -/
theorem ttl_counter_has_no_per_user_mirror :
    (runStats [StatsEvent.ttlApplied 0]).global.ttl_policies_applied = 1
    ∧ (runStats []).global.ttl_policies_applied = 0
    ∧ (runStats [StatsEvent.ttlApplied 0]).perUser = (runStats []).perUser :=
  ⟨rfl, rfl, rfl⟩

/-- C2 (amended): for the seven counters kept in both `global_stats` and
every per-user entry of `user_stats` (operations, uploads, downloads,
errors, bytes transferred, files created, large files), the global counter
equals the sum of the per-actor counters at every observation point where
no critical section is in flight.  The remaining counters of the claim are
one-sided: `ttl_policies_applied` is global-only, `subfolders_used` and
`disk_space_checks` are per-actor-only. -/
theorem global_counters_match_per_user_sums (es : List StatsEvent) :
    (runStats es).global.operations = ∑ u, ((runStats es).perUser u).operations
    ∧ (runStats es).global.uploads = ∑ u, ((runStats es).perUser u).uploads
    ∧ (runStats es).global.downloads = ∑ u, ((runStats es).perUser u).downloads
    ∧ (runStats es).global.errors = ∑ u, ((runStats es).perUser u).errors
    ∧ (runStats es).global.bytes_transferred
        = ∑ u, ((runStats es).perUser u).bytes_transferred
    ∧ (runStats es).global.files_created
        = ∑ u, ((runStats es).perUser u).files_created
    ∧ (runStats es).global.large_files_created
        = ∑ u, ((runStats es).perUser u).large_files :=
  statsInv_run es

/-- C9: over every trace of completed actions, the global operations
counter equals the sum of the global uploads and downloads counters —
they are incremented together in `upload_operation` and
`download_operation`, and nowhere else. -/
theorem operations_eq_uploads_add_downloads (es : List StatsEvent) :
    (runStats es).global.operations
      = (runStats es).global.uploads + (runStats es).global.downloads := by
  have h : ∀ s : StatsState,
      s.global.operations = s.global.uploads + s.global.downloads →
      (es.foldl statsStep s).global.operations
        = (es.foldl statsStep s).global.uploads
          + (es.foldl statsStep s).global.downloads := by
    induction es with
    | nil => exact fun s hs => hs
    | cons e rest ih =>
        intro s hs
        refine ih _ ?_
        cases e <;> simp [statsStep] <;> omega
  exact h initStatsState rfl

/-- Once a bucket is in `created_buckets`, no later call issues a creation
command for it. -/
lemma bucket_trace_no_create_of_mem (calls : List BucketCall) :
    ∀ created : List String, ∀ b : String, b ∈ created →
      b ∉ (bucket_call_trace created calls).2 := by
  induction calls with
  | nil => intro created b _; simp [bucket_call_trace]
  | cons c rest ih =>
      intro created b hb
      by_cases hmem : c.bucket ∈ created
      · simpa [bucket_call_trace, ensure_bucket_exists, hmem] using ih created b hb
      · by_cases hp : c.probeOk = true
        · simpa [bucket_call_trace, ensure_bucket_exists, hmem, hp] using
            ih (c.bucket :: created) b (List.mem_cons_of_mem _ hb)
        · rw [Bool.not_eq_true] at hp
          have hbn : b ≠ c.bucket := fun h => hmem (h ▸ hb)
          have hrest := ih (c.bucket :: created) b (List.mem_cons_of_mem _ hb)
          simp [bucket_call_trace, ensure_bucket_exists, hmem, hp, hbn, hrest]

/-- Every bucket receives at most one creation command over any sequence
of `ensure_bucket_exists` calls. -/
lemma bucket_trace_count_le_one (calls : List BucketCall) :
    ∀ created : List String, ∀ b : String,
      List.count b (bucket_call_trace created calls).2 ≤ 1 := by
  induction calls with
  | nil => intro created b; simp [bucket_call_trace]
  | cons c rest ih =>
      intro created b
      by_cases hmem : c.bucket ∈ created
      · simpa [bucket_call_trace, ensure_bucket_exists, hmem] using ih created b
      · by_cases hp : c.probeOk = true
        · simpa [bucket_call_trace, ensure_bucket_exists, hmem, hp] using
            ih (c.bucket :: created) b
        · have hp' : c.probeOk = false := by simpa using hp
          by_cases hbc : b = c.bucket
          · subst hbc
            have hno := bucket_trace_no_create_of_mem rest (c.bucket :: created)
              c.bucket (List.mem_cons_self c.bucket created)
            have hzero :
                List.count c.bucket (bucket_call_trace (c.bucket :: created) rest).2 = 0 :=
              List.count_eq_zero.mpr hno
            simp [bucket_call_trace, ensure_bucket_exists, hmem, hp',
              List.count_cons, hzero]
          · have hih := ih (c.bucket :: created) b
            simp only [bucket_call_trace, ensure_bucket_exists, if_neg hmem, hp']
            simp only [Bool.false_eq_true, if_false, List.count_append,
              List.count_cons, List.count_nil]
            simp [hbc]
            omega

/-- C5: `ensure_bucket_exists` always returns true; when the bucket is
already marked existing it returns with the state unchanged and no
command issued; otherwise a successful probe marks it without creating;
a failed probe issues the creation command and marks the bucket existing
whether the creation succeeds or fails; consequently over any sequence of
calls in one process at most one creation command is issued per bucket
name (the calls are serialized by `bucket_creation_lock`). -/
theorem ensure_bucket_exists_once (created : List String) (c : BucketCall)
    (hmem : c.bucket ∈ created) (c2 : BucketCall) (hmem2 : c2.bucket ∉ created)
    (hp2 : c2.probeOk = true) (c3 : BucketCall) (hmem3 : c3.bucket ∉ created)
    (hp3 : c3.probeOk = false) :
    (∀ created' : List String, ∀ call : BucketCall,
        (ensure_bucket_exists created' call).1 = true)
    ∧ ensure_bucket_exists created c = (true, created, false)
    ∧ ensure_bucket_exists created c2 = (true, c2.bucket :: created, false)
    ∧ ensure_bucket_exists created c3 = (true, c3.bucket :: created, true)
    ∧ (∀ b p created', ensure_bucket_exists created'
          { bucket := b, probeOk := p, createOk := true }
        = ensure_bucket_exists created'
          { bucket := b, probeOk := p, createOk := false })
    ∧ (∀ calls : List BucketCall, ∀ b : String,
        List.count b (bucket_call_trace [] calls).2 ≤ 1) := by
  refine ⟨?_, ?_, ?_, ?_, ?_, fun calls b => bucket_trace_count_le_one calls [] b⟩
  · intro created' call
    by_cases h1 : call.bucket ∈ created' <;> by_cases h2 : call.probeOk <;>
      simp [ensure_bucket_exists, h1, h2]
  · simp [ensure_bucket_exists, hmem]
  · simp [ensure_bucket_exists, hmem2, hp2]
  · simp [ensure_bucket_exists, hmem3, hp3]
  · intro b p created'
    simp [ensure_bucket_exists]

/-- Witness for C5 on the buckets of `USER_CONFIGS`: two calls against the
same missing bucket with failing probes issue exactly one creation
command. -/
theorem ensure_bucket_exists_once_witness :
    (ensure_bucket_exists []
        { bucket := "david-backups", probeOk := false, createOk := false }).1 = true
    ∧ ensure_bucket_exists ["alice-dev-workspace"]
        { bucket := "alice-dev-workspace", probeOk := false, createOk := false }
        = (true, ["alice-dev-workspace"], false)
    ∧ ensure_bucket_exists ["alice-dev-workspace"]
        { bucket := "bob-marketing-assets", probeOk := true, createOk := false }
        = (true, "bob-marketing-assets" :: ["alice-dev-workspace"], false)
    ∧ ensure_bucket_exists ["alice-dev-workspace"]
        { bucket := "carol-analytics", probeOk := false, createOk := false }
        = (true, "carol-analytics" :: ["alice-dev-workspace"], true)
    ∧ ensure_bucket_exists []
        { bucket := "henry-operations", probeOk := false, createOk := true }
      = ensure_bucket_exists []
        { bucket := "henry-operations", probeOk := false, createOk := false }
    ∧ List.count "david-backups" (bucket_call_trace []
        [{ bucket := "david-backups", probeOk := false, createOk := false },
         { bucket := "david-backups", probeOk := false, createOk := false }]).2 ≤ 1 := by
  have h := ensure_bucket_exists_once ["alice-dev-workspace"]
    { bucket := "alice-dev-workspace", probeOk := false, createOk := false }
    (by decide)
    { bucket := "bob-marketing-assets", probeOk := true, createOk := false }
    (by decide) (by decide)
    { bucket := "carol-analytics", probeOk := false, createOk := false }
    (by decide) (by decide)
  exact ⟨h.1 [] _, h.2.1, h.2.2.1, h.2.2.2.1,
    h.2.2.2.2.1 "henry-operations" false [],
    h.2.2.2.2.2
      [{ bucket := "david-backups", probeOk := false, createOk := false },
       { bucket := "david-backups", probeOk := false, createOk := false }]
      "david-backups"⟩

/-- C7: a first invocation acquires the lock and writes its own pid into
the lock file; a second invocation started while the first process (still
alive) holds the lock exits immediately, reports the holder's pid, and
never reaches the setup step that creates actor state or temp
directories. -/
theorem second_instance_exits_before_creating_state
    (p q : Nat) (alive1 alive2 : Nat → Bool) (halive : alive2 p = true) :
    main_startup p { content := none, heldBy := none } alive1
      = (MainOutcome.started { content := some p, heldBy := some p }, true)
    ∧ main_startup q { content := some p, heldBy := some p } alive2
      = (MainOutcome.exitAlreadyRunning (some p), false) := by
  constructor
  · simp [main_startup, check_if_running, acquire_lock]
  · simp [main_startup, check_if_running, halive]

/-- Witness for C7: pids 100 and 200, with process 100 alive. -/
theorem second_instance_exits_before_creating_state_witness :
    main_startup 100 { content := none, heldBy := none } (fun _ => false)
      = (MainOutcome.started { content := some 100, heldBy := some 100 }, true)
    ∧ main_startup 200 { content := some 100, heldBy := some 100 }
        (fun n => n == 100)
      = (MainOutcome.exitAlreadyRunning (some 100), false) :=
  second_instance_exits_before_creating_state 100 200 (fun _ => false)
    (fun n => n == 100) (by decide)

/-- C8 counterexample: when the listing step of a download action exits
non-zero, `download_operation` returns failure without incrementing any
error counter — the error is caught but not counted, contradicting the
claim that every non-zero exit increments the error counters. -/
theorem download_listing_error_not_counted :
    download_operation (ListOutcome.exited 1 []) [] CmdOutcome.success 0
        initGlobalStats initUserStats
      = (false, initGlobalStats, initUserStats)
    ∧ (download_operation (ListOutcome.exited 1 []) [] CmdOutcome.success 0
        initGlobalStats initUserStats).2.1.errors = 0 :=
  ⟨rfl, rfl⟩

/-- C8 (amended): every error of the external copy command (non-zero exit,
timeout, or exception in `run_obsctl_command`) and every exception around
the download body is caught at the action boundary and increments both
error counters; a non-zero exit of the download's listing step is caught
and returns failure but without incrementing the error counters; and the
actor's loop processes every scheduled iteration regardless of action
outcomes — it never terminates because an action failed. -/
theorem action_errors_caught_and_loop_continues
    (o : CmdOutcome) (ho : o ≠ CmdOutcome.success) :
    (∀ g us, run_obsctl_command o g us
        = (false,
           { g with errors := g.errors + 1 },
           { us with errors := us.errors + 1 }))
    ∧ (∀ parts cp sz g us, download_operation ListOutcome.raised parts cp sz g us
        = (false,
           { g with errors := g.errors + 1 },
           { us with errors := us.errors + 1 }))
    ∧ (∀ rc lines parts cp sz g us, rc ≠ 0 →
        download_operation (ListOutcome.exited rc lines) parts cp sz g us
          = (false, g, us))
    ∧ (∀ iters : List LoopIteration, user_loop_iterations iters = iters.length) := by
  refine ⟨?_, ?_, ?_, ?_⟩
  · intro g us
    cases o with
    | success => exact absurd rfl ho
    | nonzeroExit => rfl
    | timeoutExpired => rfl
    | raised => rfl
  · intro parts cp sz g us
    rfl
  · intro rc lines parts cp sz g us hrc
    simp [download_operation, hrc]
  · intro iters
    have h : ∀ (l : List LoopIteration) (n : Nat),
        l.foldl (fun m _ => m + 1) n = n + l.length := by
      intro l
      induction l with
      | nil => intro n; simp
      | cons x xs ih => intro n; simp [ih]; omega
    simpa using h iters 0

/-- Witness for C8 (amended) at the timeout outcome on the freshly
initialized counters. -/
theorem action_errors_caught_and_loop_continues_witness :
    run_obsctl_command CmdOutcome.timeoutExpired initGlobalStats initUserStats
      = (false,
         { initGlobalStats with errors := initGlobalStats.errors + 1 },
         { initUserStats with errors := initUserStats.errors + 1 })
    ∧ download_operation ListOutcome.raised [] CmdOutcome.success 0
        initGlobalStats initUserStats
      = (false,
         { initGlobalStats with errors := initGlobalStats.errors + 1 },
         { initUserStats with errors := initUserStats.errors + 1 })
    ∧ download_operation (ListOutcome.exited 1 ["header", "entry"]) []
        CmdOutcome.success 0 initGlobalStats initUserStats
      = (false, initGlobalStats, initUserStats)
    ∧ user_loop_iterations
        [{ actionWasUpload := true, actionSucceeded := false },
         { actionWasUpload := false, actionSucceeded := false }] = 2 := by
  have h := action_errors_caught_and_loop_continues CmdOutcome.timeoutExpired (by decide)
  exact ⟨h.1 initGlobalStats initUserStats,
    h.2.1 [] CmdOutcome.success 0 initGlobalStats initUserStats,
    h.2.2.1 1 ["header", "entry"] [] CmdOutcome.success 0
      initGlobalStats initUserStats (by decide),
    by simpa using h.2.2.2 [{ actionWasUpload := true, actionSucceeded := false }, { actionWasUpload := false, actionSucceeded := false }]⟩

/-- The chunked binary write loop emits exactly its initial remainder when
the chunk size is positive. -/
lemma binary_write_loop_eq (c : Nat) (hc : 0 < c) :
    ∀ r, binary_write_loop c r = r := by
  intro r
  induction r using Nat.strong_induction_on with
  | _ r ih =>
      by_cases hr : r = 0
      · subst hr
        rw [binary_write_loop]
        simp
      · have hcond : ¬ (c = 0 ∨ r = 0) := by omega
        have hmin : 0 < min c r := lt_min hc (Nat.pos_of_ne_zero hr)
        have hle : min c r ≤ r := Nat.min_le_right c r
        rw [binary_write_loop, if_neg hcond, ih (r - min c r) (by omega)]
        omega

/-- The text accumulation loop never stops below the requested size when
every appended piece is non-empty. -/
lemma text_content_loop_length (pieces : Nat → List Nat) (size : Nat)
    (hp : ∀ i, (pieces i).length ≠ 0) :
    ∀ n i acc, size - acc.length ≤ n →
      size ≤ (text_content_loop pieces size i acc).length := by
  intro n
  induction n with
  | zero =>
      intro i acc h
      have hsz : size ≤ acc.length := by omega
      rw [text_content_loop, if_pos hsz]
      exact hsz
  | succ n ih =>
      intro i acc h
      by_cases hsz : size ≤ acc.length
      · rw [text_content_loop, if_pos hsz]
        exact hsz
      · have hl : 1 ≤ (pieces i).length := Nat.pos_of_ne_zero (hp i)
        rw [text_content_loop, if_neg hsz, if_neg (hp i)]
        apply ih
        simp only [List.length_append]
        omega

/-- C3: the synthesized artifact's byte length equals the requested size
exactly.  The binary branch of `generate_file` writes exactly `sizeBytes`
bytes in `urandom` chunks, and the text generators accumulate non-empty
pieces past `sizeBytes` and hard-truncate with `content[:size_bytes]`. -/
theorem artifact_byte_length_exact (sizeBytes : Nat) (header : List Nat)
    (pieces : Nat → List Nat) (hp : ∀ i, (pieces i).length ≠ 0) :
    generate_file_binary_bytes sizeBytes = sizeBytes
    ∧ (generate_text_content header pieces sizeBytes).length = sizeBytes := by
  constructor
  · unfold generate_file_binary_bytes
    by_cases hs : sizeBytes = 0
    · subst hs
      rw [binary_write_loop]
      simp
    · exact binary_write_loop_eq _ (lt_min (by norm_num) (Nat.pos_of_ne_zero hs)) _
  · unfold generate_text_content
    rw [List.length_take]
    have h := text_content_loop_length pieces sizeBytes hp
      (sizeBytes - header.length) 0 header le_rfl
    omega

/-- Witness for C3: a 9-byte binary artifact, and a 9-byte code file built
from the ASCII header `#\n` and copies of the piece `x=1\n`. -/
theorem artifact_byte_length_exact_witness :
    generate_file_binary_bytes 9 = 9
    ∧ (generate_text_content [35, 10] (fun _ => [120, 61, 49, 10]) 9).length = 9 :=
  artifact_byte_length_exact 9 [35, 10] (fun _ => [120, 61, 49, 10])
    (by intro i; simp)

end ObsctlTraffic
